import Mathlib

/-!
CS118 reliable transport: handshake and data acknowledgment.

A shallow embedding of `src/client.c` (the initiator) and `src/server.c`
(the listener).

* The C `packet` struct is a Lean structure whose fields hold the same
  integers the C fields hold, i.e. the multi-byte fields hold values already
  passed through `htonl` / `htons`.
* The byte order of the host is a parameter `le` (`true` on a little-endian
  host); `htonl`, `ntohl`, `ntohs` and the in-memory image of the struct depend
  on it.
* `uint32_t` arithmetic is arithmetic on `Nat` reduced modulo `2 ^ 32`.
* System calls are explicit inputs and outputs: the value `rand()` returns, the
  result of each `sendto` / `recvfrom`, the packets handed to `sendto`, and the
  count handed to `write`.
-/

namespace CS118

/-! ## Packet and byte order -/

/-- Maximum segment size, the capacity of `payload` (`#define MSS 1012`). -/
def MSS : Nat := 1012

/-- Diagnostic tags of `print_diag`. -/
def RECV : Nat := 0
def SEND : Nat := 1
def RTOS : Nat := 2
def DUPA : Nat := 3

/-- The C struct `packet`: `uint32_t ack, seq; uint16_t length; uint8_t flags,
unused; uint8_t payload[MSS]`. Each field holds the integer the C field holds. -/
structure packet where
  ack : Nat
  seq : Nat
  length : Nat
  flags : Nat
  unused : Nat
  payload : List Nat
deriving DecidableEq

/-- The value of `packet p = {0};`. -/
def packet.zero : packet :=
  { ack := 0, seq := 0, length := 0, flags := 0, unused := 0, payload := List.replicate MSS 0 }

/-- Byte reversal of a 32-bit value. -/
def bswap32 (x : Nat) : Nat :=
  (x % 256) * 16777216 + (x / 256 % 256) * 65536 + (x / 65536 % 256) * 256 + (x / 16777216 % 256)

/-- Byte reversal of a 16-bit value. -/
def bswap16 (x : Nat) : Nat :=
  (x % 256) * 256 + (x / 256 % 256)

/-- Host to network order, 32 bit: a byte swap on a little-endian host. -/
def htonl (le : Bool) (x : Nat) : Nat := if le then bswap32 x else x

/-- Network to host order, 32 bit. -/
def ntohl (le : Bool) (x : Nat) : Nat := if le then bswap32 x else x

/-- Host to network order, 16 bit. -/
def htons (le : Bool) (x : Nat) : Nat := if le then bswap16 x else x

/-- Network to host order, 16 bit. -/
def ntohs (le : Bool) (x : Nat) : Nat := if le then bswap16 x else x

/-- Big-endian bytes of a 32-bit value. -/
def be32 (x : Nat) : List Nat :=
  [x / 16777216 % 256, x / 65536 % 256, x / 256 % 256, x % 256]

/-- Big-endian bytes of a 16-bit value. -/
def be16 (x : Nat) : List Nat := [x / 256 % 256, x % 256]

/-- The bytes a `uint32_t` occupies in memory on the host. -/
def storeU32 (le : Bool) (x : Nat) : List Nat :=
  if le then (be32 x).reverse else be32 x

/-- The bytes a `uint16_t` occupies in memory on the host. -/
def storeU16 (le : Bool) (x : Nat) : List Nat :=
  if le then (be16 x).reverse else be16 x

/-- The `uint32_t` stored at offset `off` of a memory image. -/
def loadU32 (le : Bool) (m : List Nat) (off : Nat) : Nat :=
  let b0 := m.getD off 0
  let b1 := m.getD (off + 1) 0
  let b2 := m.getD (off + 2) 0
  let b3 := m.getD (off + 3) 0
  if le then b3 * 16777216 + b2 * 65536 + b1 * 256 + b0
  else b0 * 16777216 + b1 * 65536 + b2 * 256 + b3

/-- The `uint16_t` stored at offset `off` of a memory image. -/
def loadU16 (le : Bool) (m : List Nat) (off : Nat) : Nat :=
  let b0 := m.getD off 0
  let b1 := m.getD (off + 1) 0
  if le then b1 * 256 + b0 else b0 * 256 + b1

/-- The memory image of a `packet`, which is what `sendto(sockfd, &p, sizeof(p), ...)`
puts on the wire: `ack` at offset 0, `seq` at 4, `length` at 8, `flags` at 10,
`unused` at 11, `payload` from 12. -/
def packet.toMem (le : Bool) (p : packet) : List Nat :=
  storeU32 le p.ack ++ storeU32 le p.seq ++ storeU16 le p.length ++ [p.flags, p.unused] ++ p.payload

/-- The `packet` read from a memory image, as after
`recvfrom(sockfd, &pkt, sizeof(pkt), ...)` has filled the struct. -/
def packet.ofMem (le : Bool) (m : List Nat) : packet :=
  { ack := loadU32 le m 0
    seq := loadU32 le m 4
    length := loadU16 le m 8
    flags := m.getD 10 0
    unused := m.getD 11 0
    payload := (m.drop 12).take MSS }

/-- What one `recvfrom` call leaves behind: its return value and the receive
buffer (zero-initialised before the call). -/
structure RecvResult where
  bytes_recvd : Int
  pkt : packet
deriving DecidableEq

/-- The `recvfrom` of a datagram into `packet pkt = {0}`: at most `sizeof(packet)`
= 1024 bytes are copied, the rest of the struct stays zero. -/
def recvDatagram (le : Bool) (d : List Nat) : RecvResult :=
  { bytes_recvd := ((d.take 1024).length : Int)
    pkt := packet.ofMem le (d.take 1024 ++ List.replicate (1024 - (d.take 1024).length) 0) }

/-! ## Listener (`server.c`) -/

namespace Server

/-- The packet `send_ack` hands to `sendto`: zeroed, `ack = htonl(ack_num)`,
`flags = 1 << 1`. -/
def send_ack (le : Bool) (ack_num : Nat) : packet :=
  { packet.zero with ack := htonl le ack_num, flags := 1 <<< 1 }

/-- The variables that survive an iteration of the listen loop:
`client_connected`, and the number of `rand()` calls made so far. -/
structure State where
  client_connected : Bool
  rand_calls : Nat
deriving DecidableEq

/-- State before the listen loop. -/
def State.init : State := { client_connected := false, rand_calls := 0 }

/-- What an iteration does to the outside: `print_diag` calls, the count of each
`write(STDOUT_FILENO, pkt.payload, count)`, the bytes of `payload` such a call
writes, the packets handed to `sendto`, and whether `perror` ran.

`write` copies `count` bytes starting at `pkt.payload`; a count above `MSS` runs
past the end of the array, so `stdout` holds the bytes taken from the array and
`write_calls` the count that was asked for. -/
structure Effects where
  diag : List (Nat × packet)
  write_calls : List Nat
  stdout : List Nat
  sent : List packet
  perror : Bool
deriving DecidableEq

/-- No effect. -/
def Effects.none : Effects :=
  { diag := [], write_calls := [], stdout := [], sent := [], perror := false }

/-- Effects of two steps in sequence. -/
def Effects.append (a b : Effects) : Effects :=
  { diag := a.diag ++ b.diag
    write_calls := a.write_calls ++ b.write_calls
    stdout := a.stdout ++ b.stdout
    sent := a.sent ++ b.sent
    perror := a.perror || b.perror }

/-- The SYN-ACK built in answer to a SYN (server.c lines 159-162): zeroed,
`seq = htonl(rand() % 10000)`, `ack = htonl(recv_seq + 1)`, both flags set.
`rand_val` is the value `rand()` returns. -/
def syn_ack_packet (le : Bool) (rand_val recv_seq : Nat) : packet :=
  { packet.zero with
    seq := htonl le (rand_val % 10000)
    ack := htonl le ((recv_seq + 1) % 4294967296)
    flags := (1 <<< 1) ||| 1 }

/-- The data branch of the loop body (server.c lines 170-183): a packet whose
`seq` equals its own `ack` is written to standard output and acknowledged with
`seq + length`; any other packet is answered with an acknowledgment carrying the
`ack` field of the packet itself. -/
def data_path (le : Bool) (pkt : packet) : Effects :=
  let recv_seq := ntohl le pkt.seq
  let recv_ack := ntohl le pkt.ack
  if recv_seq = recv_ack then
    { Effects.none with
      diag := [(RECV, pkt)]
      write_calls := [ntohs le pkt.length]
      stdout := pkt.payload.take (ntohs le pkt.length)
      sent := [send_ack le ((recv_seq + ntohs le pkt.length) % 4294967296)] }
  else
    { Effects.none with
      diag := [(DUPA, pkt)]
      sent := [send_ack le recv_ack] }

/-- One iteration of the listen loop of `main` (server.c lines 131-190).
`rand k` is the value of the `k`-th call of `rand()`, `ev` the outcome of the
`recvfrom` of this iteration, `errno_again` whether `errno` is `EAGAIN` / `EWOULDBLOCK`. -/
def iter (le : Bool) (rand : Nat → Nat) (errno_again : Bool) (st : State) (ev : RecvResult) :
    State × Effects :=
  let pkt := ev.pkt
  if ev.bytes_recvd ≤ 0 ∧ st.client_connected = false then
    (st, Effects.none)
  else
    let st1 : State := { st with client_connected := true }
    if ev.bytes_recvd > 0 then
      let recv_seq := ntohl le pkt.seq
      if pkt.flags &&& 1 ≠ 0 then
        let syn_ack_packet := syn_ack_packet le (rand st.rand_calls) recv_seq
        ({ st1 with rand_calls := st.rand_calls + 1 },
          { Effects.none with
            diag := [(RECV, pkt), (SEND, syn_ack_packet)]
            sent := [syn_ack_packet] })
      else if pkt.flags &&& (1 <<< 1) ≠ 0 then
        (st1, { Effects.none with diag := [(RECV, pkt)] })
      else
        (st1, data_path le pkt)
    else if ev.bytes_recvd < 0 ∧ errno_again = false then
      (st1, { Effects.none with perror := true })
    else
      (st1, Effects.none)

/-- The listen loop over a finite run of `recvfrom` outcomes, from state `st`. -/
def run (le : Bool) (rand : Nat → Nat) (errno_again : Bool) :
    State → List RecvResult → State × Effects
  | st, [] => (st, Effects.none)
  | st, ev :: evs =>
    let r := iter le rand errno_again st ev
    let rs := run le rand errno_again r.1 evs
    (rs.1, r.2.append rs.2)

end Server

/-! ## Initiator (`client.c`) -/

namespace Client

/-- Number of handshake attempts (`#define TIMEOUT 3`). -/
def TIMEOUT : Nat := 3

/-- What the network does during the handshake: whether the `k`-th `sendto`
succeeds (returns `≥ 0`), and the outcome of the `k`-th `recvfrom`. -/
structure Env where
  sendOk : Nat → Bool
  recv : Nat → RecvResult

/-- Outcome of the retry loop. -/
structure LoopResult where
  sent : List packet
  server_seq : Nat
  send_failed : Bool
deriving DecidableEq

/-- The SYN packet built at client.c lines 99-101. -/
def syn_packet (le : Bool) (client_seq : Nat) : packet :=
  { packet.zero with seq := htonl le client_seq, flags := 1 }

/-- The retry loop `for (attempt = 0; attempt < TIMEOUT; ++attempt)` (client.c
lines 103-124); `remaining` is `TIMEOUT - attempt`. A failed `sendto` returns
from `main`; any `recvfrom` with `bytes_recvd > 0` stores `ntohl(seq)` of the
received packet in `server_seq` and leaves the loop. -/
def synLoop (le : Bool) (env : Env) (syn : packet) :
    Nat → Nat → Nat → List packet → LoopResult
  | 0, _, server_seq, sent => { sent := sent, server_seq := server_seq, send_failed := false }
  | remaining + 1, attempt, server_seq, sent =>
    if env.sendOk attempt = false then
      { sent := sent, server_seq := server_seq, send_failed := true }
    else
      let sent1 := sent ++ [syn]
      let r := env.recv attempt
      if r.bytes_recvd > 0 then
        { sent := sent1, server_seq := ntohl le r.pkt.seq, send_failed := false }
      else
        synLoop le env syn remaining (attempt + 1) server_seq sent1

/-- The final ACK packet built at client.c lines 127-130. -/
def ack_packet (le : Bool) (client_seq server_seq : Nat) : packet :=
  { packet.zero with
    seq := htonl le ((client_seq + 1) % 4294967296)
    ack := htonl le ((server_seq + 1) % 4294967296)
    flags := 1 <<< 1 }

/-- Outcome of the handshake part of `main`. -/
structure Result where
  sent : List packet
  server_seq : Nat
  exited : Bool
deriving DecidableEq

/-- The handshake of `main` (client.c lines 98-138) for a given `client_seq`.
`server_seq0` is the indeterminate initial value of the uninitialised local
`server_seq`. The final ACK is the next `sendto` after the SYNs. -/
def handshake (le : Bool) (env : Env) (client_seq server_seq0 : Nat) : Result :=
  let r := synLoop le env (syn_packet le client_seq) TIMEOUT 0 server_seq0 []
  if r.send_failed then
    { sent := r.sent, server_seq := r.server_seq, exited := true }
  else
    if env.sendOk r.sent.length = false then
      { sent := r.sent, server_seq := r.server_seq, exited := true }
    else
      { sent := r.sent ++ [ack_packet le client_seq r.server_seq]
        server_seq := r.server_seq
        exited := false }

/-- The start of `main` (client.c lines 94-138): `client_seq = rand() % 1000`,
then the handshake. `rand_val` is the value `rand()` returns. -/
def main_handshake (le : Bool) (env : Env) (rand_val server_seq0 : Nat) : Result :=
  handshake le env (rand_val % 1000) server_seq0

end Client

/-! ## Concrete inputs -/

/-- A data packet as a peer on a little-endian host lays it out: `flags = 0`, the
given `seq`, `ack` and `length` in network byte order, `bytes` at the start of
the zeroed payload array. -/
def data_packet (seq ack length : Nat) (bytes : List Nat) : packet :=
  { packet.zero with
    seq := htonl true seq
    ack := htonl true ack
    length := htons true length
    payload := bytes ++ List.replicate (MSS - bytes.length) 0 }

/-- The bytes of "hello". -/
def hello : List Nat := [104, 101, 108, 108, 111]

/-- The header fields of a packet as `print_diag` shows them. -/
def shown (p : packet) : Nat × Nat × Nat × Nat :=
  (ntohl true p.seq, ntohl true p.ack, ntohs true p.length, p.flags)

/-- A packet with only bit 2 of `flags` set, whose `seq` equals its `ack`, carrying
one payload byte. -/
def flag4_packet : packet :=
  { packet.zero with
    seq := htonl true 7, ack := htonl true 7, length := htons true 1, flags := 4
    payload := 104 :: List.replicate 1011 0 }

/-! ## Byte order and flag lemmas -/

theorem bytes32_split (a b c d : Nat) (ha : a < 256) (hb : b < 256) (hc : c < 256) (hd : d < 256) :
    (a * 16777216 + b * 65536 + c * 256 + d) % 256 = d ∧
    (a * 16777216 + b * 65536 + c * 256 + d) / 256 % 256 = c ∧
    (a * 16777216 + b * 65536 + c * 256 + d) / 65536 % 256 = b ∧
    (a * 16777216 + b * 65536 + c * 256 + d) / 16777216 % 256 = a := by
  refine ⟨?_, ?_, ?_, ?_⟩ <;> omega

theorem bytes32_join (x : Nat) (h : x < 4294967296) :
    (x / 16777216 % 256) * 16777216 + (x / 65536 % 256) * 65536 + (x / 256 % 256) * 256 + x % 256 = x := by
  have h1 : x / 256 / 256 = x / 65536 := by rw [Nat.div_div_eq_div_mul]
  have h2 : x / 65536 / 256 = x / 16777216 := by rw [Nat.div_div_eq_div_mul]
  omega

theorem bswap32_bswap32 (x : Nat) (h : x < 4294967296) : bswap32 (bswap32 x) = x := by
  have hs := bytes32_split (x % 256) (x / 256 % 256) (x / 65536 % 256) (x / 16777216 % 256)
    (Nat.mod_lt _ (by decide)) (Nat.mod_lt _ (by decide)) (Nat.mod_lt _ (by decide))
    (Nat.mod_lt _ (by decide))
  obtain ⟨h0, h1, h2, h3⟩ := hs
  have hj := bytes32_join x h
  unfold bswap32
  rw [h0, h1, h2, h3]
  omega

theorem ntohl_htonl (le : Bool) (x : Nat) (h : x < 4294967296) : ntohl le (htonl le x) = x := by
  cases le <;> simp [ntohl, htonl, bswap32_bswap32 x h]

theorem and_two_mod4 (f : Nat) : f &&& 2 = (f % 4) &&& 2 := by
  have h2 : (2 : Nat) = 3 &&& 2 := by decide
  have h3 : f &&& 3 = f % 4 := Nat.and_pow_two_sub_one_eq_mod f 2
  conv_lhs => rw [h2, ← Nat.and_assoc, h3]

theorem flag_syn_iff (f : Nat) : f &&& 1 ≠ 0 ↔ f % 2 = 1 := by
  rw [Nat.and_one_is_mod]; omega

theorem flag_ack_iff (f : Nat) : f &&& (1 <<< 1) ≠ 0 ↔ f / 2 % 2 = 1 := by
  have e : (1 <<< 1 : Nat) = 2 := by decide
  rw [e, and_two_mod4]
  have hlt : f % 4 < 4 := Nat.mod_lt _ (by decide)
  have hc : f % 4 = 0 ∨ f % 4 = 1 ∨ f % 4 = 2 ∨ f % 4 = 3 := by omega
  rcases hc with h | h | h | h <;> rw [h] <;> constructor <;> intro hh <;> first | omega | (exfalso; revert hh; decide) | decide

theorem Client.handshake_first_reply (le : Bool) (env : Client.Env) (c0 server_seq0 : Nat)
    (hs : ∀ k, env.sendOk k = true) (hr : 0 < (env.recv 0).bytes_recvd) :
    Client.handshake le env c0 server_seq0 =
      { sent := [Client.syn_packet le c0, Client.ack_packet le c0 (ntohl le (env.recv 0).pkt.seq)]
        server_seq := ntohl le (env.recv 0).pkt.seq
        exited := false } := by
  simp [Client.handshake, Client.synLoop, Client.TIMEOUT, hs, hr]

theorem Server.iter_data (le : Bool) (rand : Nat → Nat) (errno_again : Bool)
    (st : Server.State) (ev : RecvResult) (hn : 0 < ev.bytes_recvd)
    (h0 : ev.pkt.flags % 2 = 0) (h1 : ev.pkt.flags / 2 % 2 = 0) :
    Server.iter le rand errno_again st ev =
      ({ st with client_connected := true }, Server.data_path le ev.pkt) := by
  have hs : ¬ (ev.pkt.flags &&& 1 ≠ 0) := by rw [flag_syn_iff]; omega
  have ha : ¬ (ev.pkt.flags &&& (1 <<< 1) ≠ 0) := by rw [flag_ack_iff]; omega
  have hn2 : ¬ (ev.bytes_recvd ≤ 0) := by omega
  unfold Server.iter
  simp only [hs, ha, hn, hn2, false_and, if_true, if_false, gt_iff_lt, ne_eq, not_false_eq_true, not_true_eq_false]

theorem Server.iter_syn (le : Bool) (rand : Nat → Nat) (errno_again : Bool)
    (st : Server.State) (ev : RecvResult) (hn : 0 < ev.bytes_recvd)
    (h0 : ev.pkt.flags % 2 = 1) :
    Server.iter le rand errno_again st ev =
      ({ client_connected := true, rand_calls := st.rand_calls + 1 },
        { Server.Effects.none with
          diag := [(RECV, ev.pkt),
            (SEND, Server.syn_ack_packet le (rand st.rand_calls) (ntohl le ev.pkt.seq))]
          sent := [Server.syn_ack_packet le (rand st.rand_calls) (ntohl le ev.pkt.seq)] }) := by
  have hs : ev.pkt.flags &&& 1 ≠ 0 := (flag_syn_iff _).2 h0
  have hn2 : ¬ (ev.bytes_recvd ≤ 0) := by omega
  unfold Server.iter
  simp only [hs, hn, hn2, false_and, if_true, if_false, gt_iff_lt, ne_eq, not_false_eq_true, not_true_eq_false]

theorem Server.iter_ack (le : Bool) (rand : Nat → Nat) (errno_again : Bool)
    (st : Server.State) (ev : RecvResult) (hn : 0 < ev.bytes_recvd)
    (h0 : ev.pkt.flags % 2 = 0) (h1 : ev.pkt.flags / 2 % 2 = 1) :
    Server.iter le rand errno_again st ev =
      ({ st with client_connected := true },
        { Server.Effects.none with diag := [(RECV, ev.pkt)] }) := by
  have hs : ¬ (ev.pkt.flags &&& 1 ≠ 0) := by rw [flag_syn_iff]; omega
  have ha : ev.pkt.flags &&& (1 <<< 1) ≠ 0 := (flag_ack_iff _).2 h1
  have hn2 : ¬ (ev.bytes_recvd ≤ 0) := by omega
  unfold Server.iter
  simp only [hs, ha, hn, hn2, false_and, if_true, if_false, gt_iff_lt, ne_eq, not_false_eq_true, not_true_eq_false]

theorem Server.data_path_sent (le : Bool) (pkt : packet) :
    ∃ a, (Server.data_path le pkt).sent = [Server.send_ack le a] ∧
      (Server.data_path le pkt).diag.length = 1 := by
  unfold Server.data_path
  by_cases h : ntohl le pkt.seq = ntohl le pkt.ack
  · simp [h, Server.Effects.none]
  · simp [h, Server.Effects.none]

theorem htonl_inj (le : Bool) (x y : Nat) (hx : x < 4294967296) (hy : y < 4294967296)
    (h : htonl le x = htonl le y) : x = y := by
  have := congrArg (ntohl le) h
  rwa [ntohl_htonl le x hx, ntohl_htonl le y hy] at this

theorem storeU32_htonl (le : Bool) (x : Nat) : storeU32 le (htonl le x) = be32 x := by
  cases le
  · simp [storeU32, htonl]
  · obtain ⟨h0, h1, h2, h3⟩ :=
      bytes32_split (x % 256) (x / 256 % 256) (x / 65536 % 256) (x / 16777216 % 256)
        (Nat.mod_lt _ (by decide)) (Nat.mod_lt _ (by decide)) (Nat.mod_lt _ (by decide))
        (Nat.mod_lt _ (by decide))
    simp only [storeU32, htonl, if_true, be32, bswap32, h0, h1, h2, h3]
    rfl

theorem storeU32_zero (le : Bool) : storeU32 le 0 = be32 0 := by
  cases le <;> decide

theorem storeU16_zero (le : Bool) : storeU16 le 0 = be16 0 := by
  cases le <;> decide

theorem storeU16_htons (le : Bool) (x : Nat) : storeU16 le (htons le x) = be16 x := by
  cases le
  · simp [storeU16, htons]
  · have h0 : (x % 256 * 256 + x / 256 % 256) % 256 = x / 256 % 256 := by omega
    have h1 : (x % 256 * 256 + x / 256 % 256) / 256 % 256 = x % 256 := by omega
    simp only [storeU16, htons, if_true, be16, bswap16, h0, h1]
    rfl

theorem toMem_network_order (le : Bool) (ack seq len fl un : Nat) (payload : List Nat) :
    packet.toMem le
      { ack := htonl le ack, seq := htonl le seq, length := htons le len
        flags := fl, unused := un, payload := payload }
      = be32 ack ++ be32 seq ++ be16 len ++ [fl, un] ++ payload := by
  simp only [packet.toMem, storeU32_htonl, storeU16_htons]

theorem toMem_header (le : Bool) (p : packet) :
    (p.toMem le).take 12 =
      storeU32 le p.ack ++ storeU32 le p.seq ++ storeU16 le p.length ++ [p.flags, p.unused] := by
  cases le <;> simp [packet.toMem, storeU32, storeU16, be32, be16]

theorem ntohl_loadU32 (le : Bool) (m : List Nat) (off b0 b1 b2 b3 : Nat)
    (h0 : m.getD off 0 = b0) (h1 : m.getD (off + 1) 0 = b1) (h2 : m.getD (off + 2) 0 = b2)
    (h3 : m.getD (off + 3) 0 = b3)
    (l0 : b0 < 256) (l1 : b1 < 256) (l2 : b2 < 256) (l3 : b3 < 256) :
    ntohl le (loadU32 le m off) = b0 * 16777216 + b1 * 65536 + b2 * 256 + b3 := by
  cases le
  · simp only [ntohl, loadU32, h0, h1, h2, h3, Bool.false_eq_true, if_false]
  · obtain ⟨e0, e1, e2, e3⟩ := bytes32_split b3 b2 b1 b0 l3 l2 l1 l0
    simp only [ntohl, loadU32, if_true, h0, h1, h2, h3, bswap32, e0, e1, e2, e3]

theorem ntohs_loadU16 (le : Bool) (m : List Nat) (off b0 b1 : Nat)
    (h0 : m.getD off 0 = b0) (h1 : m.getD (off + 1) 0 = b1)
    (l0 : b0 < 256) (l1 : b1 < 256) :
    ntohs le (loadU16 le m off) = b0 * 256 + b1 := by
  cases le
  · simp only [ntohs, loadU16, h0, h1, Bool.false_eq_true, if_false]
  · have e0 : (b1 * 256 + b0) % 256 = b0 := by omega
    have e1 : (b1 * 256 + b0) / 256 % 256 = b1 := by omega
    simp only [ntohs, loadU16, if_true, h0, h1, bswap16, e0, e1]

theorem recv_header_byte (d : List Nat) (i : Nat) (hi : i < 12) (hd : 12 ≤ d.length) :
    (d.take 1024 ++ List.replicate (1024 - (d.take 1024).length) 0).getD i 0 = d.getD i 0 := by
  have h1 : i < (d.take 1024).length := by
    rw [List.length_take]; omega
  rw [List.getD_eq_getElem?_getD, List.getD_eq_getElem?_getD, List.getElem?_append_left h1,
    List.getElem?_take_of_lt (by omega)]

theorem be16_join (x : Nat) (h : x < 65536) : (x / 256 % 256) * 256 + x % 256 = x := by
  omega

theorem recv_fields (le : Bool) (a0 a1 a2 a3 s0 s1 s2 s3 l0 l1 fl un : Nat) (payload : List Nat)
    (ha0 : a0 < 256) (ha1 : a1 < 256) (ha2 : a2 < 256) (ha3 : a3 < 256)
    (hs0 : s0 < 256) (hs1 : s1 < 256) (hs2 : s2 < 256) (hs3 : s3 < 256)
    (hl0 : l0 < 256) (hl1 : l1 < 256) :
    ntohl le (recvDatagram le
      (a0 :: a1 :: a2 :: a3 :: s0 :: s1 :: s2 :: s3 :: l0 :: l1 :: fl :: un :: payload)).pkt.ack
      = a0 * 16777216 + a1 * 65536 + a2 * 256 + a3 ∧
    ntohl le (recvDatagram le
      (a0 :: a1 :: a2 :: a3 :: s0 :: s1 :: s2 :: s3 :: l0 :: l1 :: fl :: un :: payload)).pkt.seq
      = s0 * 16777216 + s1 * 65536 + s2 * 256 + s3 ∧
    ntohs le (recvDatagram le
      (a0 :: a1 :: a2 :: a3 :: s0 :: s1 :: s2 :: s3 :: l0 :: l1 :: fl :: un :: payload)).pkt.length
      = l0 * 256 + l1 ∧
    (recvDatagram le
      (a0 :: a1 :: a2 :: a3 :: s0 :: s1 :: s2 :: s3 :: l0 :: l1 :: fl :: un :: payload)).pkt.flags
      = fl := by
  have hlen : 12 ≤
      (a0 :: a1 :: a2 :: a3 :: s0 :: s1 :: s2 :: s3 :: l0 :: l1 :: fl :: un :: payload).length := by
    simp
  have byte := fun i hi => recv_header_byte
    (a0 :: a1 :: a2 :: a3 :: s0 :: s1 :: s2 :: s3 :: l0 :: l1 :: fl :: un :: payload) i hi hlen
  refine ⟨?_, ?_, ?_, ?_⟩
  · exact ntohl_loadU32 le _ 0 a0 a1 a2 a3 ((byte 0 (by decide)).trans rfl)
      ((byte 1 (by decide)).trans rfl) ((byte 2 (by decide)).trans rfl)
      ((byte 3 (by decide)).trans rfl) ha0 ha1 ha2 ha3
  · exact ntohl_loadU32 le _ 4 s0 s1 s2 s3 ((byte 4 (by decide)).trans rfl)
      ((byte 5 (by decide)).trans rfl) ((byte 6 (by decide)).trans rfl)
      ((byte 7 (by decide)).trans rfl) hs0 hs1 hs2 hs3
  · exact ntohs_loadU16 le _ 8 l0 l1 ((byte 8 (by decide)).trans rfl)
      ((byte 9 (by decide)).trans rfl) hl0 hl1
  · exact (byte 10 (by decide)).trans rfl

/-! ## Handshake -/

/-- C1. Handshake agreement. For every initiator sequence number `c0 < 2 ^ 32`, every
behaviour `rand` of the listener random source and every listener state: the SYN
carries `seq = c0` and `flags = 1`; the listener answers it with exactly one packet,
whose `seq` is its initial sequence number `s0 = rand() % 10000`, whose `ack` is
`c0 + 1` modulo `2 ^ 32` and whose `flags` are `3`; the initiator that receives this
answer records `server_seq = s0` and sends, after the one SYN, a final packet with
`seq = c0 + 1`, `ack = s0 + 1` (both modulo `2 ^ 32`) and `flags = 2`. The last
conjunct is the initiator half for any received packet at all: it records the `seq`
of the packet and acknowledges that value plus one. -/
theorem handshake_agreement (le : Bool) (c0 server_seq0 : Nat) (rand : Nat → Nat)
    (errno_again : Bool) (st : Server.State) (hc : c0 < 4294967296) :
    ∃ synack fin : packet,
      ntohl le (Client.syn_packet le c0).seq = c0 ∧
      (Client.syn_packet le c0).flags = 1 ∧
      (Server.iter le rand errno_again st ⟨1024, Client.syn_packet le c0⟩).2.sent = [synack] ∧
      ntohl le synack.seq = rand st.rand_calls % 10000 ∧
      ntohl le synack.ack = (c0 + 1) % 4294967296 ∧
      synack.flags = 3 ∧
      (Client.handshake le ⟨fun _ => true, fun _ => ⟨1024, synack⟩⟩ c0 server_seq0).server_seq
        = rand st.rand_calls % 10000 ∧
      (Client.handshake le ⟨fun _ => true, fun _ => ⟨1024, synack⟩⟩ c0 server_seq0).sent
        = [Client.syn_packet le c0, fin] ∧
      ntohl le fin.seq = (c0 + 1) % 4294967296 ∧
      ntohl le fin.ack = (rand st.rand_calls % 10000 + 1) % 4294967296 ∧
      fin.flags = 2 ∧
      ∀ (reply : packet) (n : Int), 0 < n →
        (Client.handshake le ⟨fun _ => true, fun _ => ⟨n, reply⟩⟩ c0 server_seq0).server_seq
          = ntohl le reply.seq ∧
        (Client.handshake le ⟨fun _ => true, fun _ => ⟨n, reply⟩⟩ c0 server_seq0).sent
          = [Client.syn_packet le c0,
             Client.ack_packet le c0 (ntohl le reply.seq)] := by
  have hs0 : rand st.rand_calls % 10000 < 4294967296 := by omega
  have hc1 : (c0 + 1) % 4294967296 < 4294967296 := Nat.mod_lt _ (by decide)
  have hs1 : (rand st.rand_calls % 10000 + 1) % 4294967296 < 4294967296 := Nat.mod_lt _ (by decide)
  refine ⟨Server.syn_ack_packet le (rand st.rand_calls) c0,
          Client.ack_packet le c0 (rand st.rand_calls % 10000), ?_⟩
  have key : ∀ (reply : packet) (n : Int), 0 < n →
      Client.handshake le ⟨fun _ => true, fun _ => ⟨n, reply⟩⟩ c0 server_seq0 =
        { sent := [Client.syn_packet le c0, Client.ack_packet le c0 (ntohl le reply.seq)]
          server_seq := ntohl le reply.seq
          exited := false } := fun reply n hn =>
    Client.handshake_first_reply le ⟨fun _ => true, fun _ => ⟨n, reply⟩⟩ c0 server_seq0
      (fun _ => rfl) hn
  have hseq : ntohl le (Server.syn_ack_packet le (rand st.rand_calls) c0).seq
      = rand st.rand_calls % 10000 := ntohl_htonl le _ hs0
  refine ⟨?_, ?_, ?_, ?_, ?_, ?_, ?_, ?_, ?_, ?_, ?_, ?_⟩
  · exact ntohl_htonl le c0 hc
  · rfl
  · simp [Client.syn_packet, Server.iter, Server.Effects.none, ntohl_htonl, hc]
  · exact hseq
  · exact ntohl_htonl le _ hc1
  · rfl
  · rw [key _ _ (by decide)]; exact hseq
  · rw [key _ _ (by decide), hseq]
  · exact ntohl_htonl le _ hc1
  · exact ntohl_htonl le _ hs1
  · rfl
  · intro reply n hn
    rw [key reply n hn]
    exact ⟨rfl, rfl⟩

/-- C1 at `c0 = 42`, `s0 = 777`: the SYN-ACK acknowledges 43, the final packet has
`seq = 43`, `ack = 778`. -/
theorem handshake_agreement_witness :
    ∃ synack fin : packet,
      ntohl true (Client.syn_packet true 42).seq = 42 ∧
      (Client.syn_packet true 42).flags = 1 ∧
      (Server.iter true (fun _ => 777) false Server.State.init
        ⟨1024, Client.syn_packet true 42⟩).2.sent = [synack] ∧
      ntohl true synack.seq = 777 ∧
      ntohl true synack.ack = 43 ∧
      synack.flags = 3 ∧
      (Client.handshake true ⟨fun _ => true, fun _ => ⟨1024, synack⟩⟩ 42 0).server_seq = 777 ∧
      (Client.handshake true ⟨fun _ => true, fun _ => ⟨1024, synack⟩⟩ 42 0).sent
        = [Client.syn_packet true 42, fin] ∧
      ntohl true fin.seq = 43 ∧
      ntohl true fin.ack = 778 ∧
      fin.flags = 2 := by
  obtain ⟨synack, fin, h1, h2, h3, h4, h5, h6, h7, h8, h9, h10, h11, _⟩ :=
    handshake_agreement true 42 0 (fun _ => 777) false Server.State.init (by decide)
  exact ⟨synack, fin, h1, h2, h3, h4, h5, h6, h7, h8, h9, h10, h11⟩

/-! ## Data packets at the listener -/

/-- C2, the code at the scenario of the specification. After SYN `seq = 42`,
SYN-ACK `seq = 777` and the final ACK, the data packet `seq = 43`, `length = 5`,
payload "hello", whose `ack` field is 778, is not written to standard output, and
the acknowledgment sent for it carries `ack = 778`, the `ack` field of the packet,
not `48`. The listener compares `seq` with the `ack` field of the same packet. -/
theorem inorder_data_rejected :
    (Server.run true (fun _ => 777) false Server.State.init
      [⟨1024, Client.syn_packet true 42⟩,
       ⟨1024, Client.ack_packet true 42 777⟩,
       ⟨1024, data_packet 43 778 5 hello⟩]).2.stdout = [] ∧
    (Server.run true (fun _ => 777) false Server.State.init
      [⟨1024, Client.syn_packet true 42⟩,
       ⟨1024, Client.ack_packet true 42 777⟩,
       ⟨1024, data_packet 43 778 5 hello⟩]).2.sent.map shown
      = [(777, 43, 0, 3), (0, 778, 0, 2)] := by
  decide

/-- C3, the code on a packet out of sequence. After the same handshake (the next
byte expected from the initiator is 43), the data packet `seq = 100`, `ack = 100`,
`length = 2` is written to standard output and acknowledged with `ack = 102`. -/
theorem gap_data_delivered :
    (Server.run true (fun _ => 777) false Server.State.init
      [⟨1024, Client.syn_packet true 42⟩,
       ⟨1024, Client.ack_packet true 42 777⟩,
       ⟨1024, data_packet 100 100 2 [104, 105]⟩]).2.stdout = [104, 105] ∧
    (Server.run true (fun _ => 777) false Server.State.init
      [⟨1024, Client.syn_packet true 42⟩,
       ⟨1024, Client.ack_packet true 42 777⟩,
       ⟨1024, data_packet 100 100 2 [104, 105]⟩]).2.sent.map shown
      = [(777, 43, 0, 3), (0, 102, 0, 2)] := by
  decide

/-- C4, the code on a duplicate. The data packet `seq = 43`, `ack = 43`, `length = 5`,
payload "hello", received twice in a row, is written to standard output twice; both
acknowledgments carry `ack = 48`. -/
theorem duplicate_data_delivered_twice :
    (Server.run true (fun _ => 777) false Server.State.init
      [⟨1024, Client.syn_packet true 42⟩,
       ⟨1024, Client.ack_packet true 42 777⟩,
       ⟨1024, data_packet 43 43 5 hello⟩,
       ⟨1024, data_packet 43 43 5 hello⟩]).2.stdout = hello ++ hello ∧
    (Server.run true (fun _ => 777) false Server.State.init
      [⟨1024, Client.syn_packet true 42⟩,
       ⟨1024, Client.ack_packet true 42 777⟩,
       ⟨1024, data_packet 43 43 5 hello⟩,
       ⟨1024, data_packet 43 43 5 hello⟩]).2.sent.map shown
      = [(777, 43, 0, 3), (0, 48, 0, 2), (0, 48, 0, 2)] := by
  decide

/-! ## Handshake retries -/

/-- C5, the code when the first packet received is not a SYN-ACK. With a pure
acknowledgment (`flags = 2`, `seq = 0`) as the outcome of the first `recvfrom`, the
initiator sends one SYN, leaves the retry loop and sends the final ACK with
`ack = 0 + 1`: one SYN in all, not three. -/
theorem syn_retry_stops_on_any_packet :
    (Server.send_ack true 48).flags = 2 ∧
    (Client.handshake true ⟨fun _ => true, fun _ => ⟨1024, Server.send_ack true 48⟩⟩ 42 0).sent.map
      shown = [(42, 0, 0, 1), (43, 1, 0, 2)] := by
  decide

/-! ## Classification of inbound packets -/

/-- C6, amended. For every received packet (`bytes_recvd > 0`) and every value of
`flags`, the listener runs the data branch exactly when `flags` has neither bit 0
(SYN) nor bit 1 (ACK) set, i.e. `flags % 4 = 0`; the higher six bits are not looked
at. When one of the two bits is set nothing is written to standard output. -/
theorem data_classification (le : Bool) (rand : Nat → Nat) (errno_again : Bool)
    (st : Server.State) (ev : RecvResult) (hn : 0 < ev.bytes_recvd) :
    ((Server.iter le rand errno_again st ev).2 = Server.data_path le ev.pkt
      ↔ ev.pkt.flags % 4 = 0) ∧
    (ev.pkt.flags % 4 ≠ 0 →
      (Server.iter le rand errno_again st ev).2.stdout = [] ∧
      (Server.iter le rand errno_again st ev).2.write_calls = []) := by
  obtain ⟨a, hsent, hdiag⟩ := Server.data_path_sent le ev.pkt
  by_cases h0 : ev.pkt.flags % 2 = 1
  · have hne : ev.pkt.flags % 4 ≠ 0 := by omega
    rw [Server.iter_syn le rand errno_again st ev hn h0]
    refine ⟨⟨fun h => ?_, fun h => absurd h hne⟩, fun _ => ⟨rfl, rfl⟩⟩
    have hd := congrArg (fun e => e.diag.length) h
    simp [Server.Effects.none, hdiag] at hd
  · by_cases h1 : ev.pkt.flags / 2 % 2 = 1
    · have hne : ev.pkt.flags % 4 ≠ 0 := by omega
      rw [Server.iter_ack le rand errno_again st ev hn (by omega) h1]
      refine ⟨⟨fun h => ?_, fun h => absurd h hne⟩, fun _ => ⟨rfl, rfl⟩⟩
      have hd := congrArg (fun e => e.sent) h
      simp [Server.Effects.none, hsent] at hd
    · have he : ev.pkt.flags % 4 = 0 := by omega
      rw [Server.iter_data le rand errno_again st ev hn (by omega) (by omega)]
      exact ⟨⟨fun _ => he, fun _ => rfl⟩, fun h => absurd he h⟩



/-- C6 amended, at a received packet with `flags = 4`. -/
theorem data_classification_witness :
    (0 : Int) < 1024 ∧
    ((Server.iter true (fun _ => 777) false Server.State.init ⟨1024, flag4_packet⟩).2
        = Server.data_path true flag4_packet ↔ flag4_packet.flags % 4 = 0) :=
  ⟨by decide,
    (data_classification true (fun _ => 777) false Server.State.init ⟨1024, flag4_packet⟩
      (by decide)).1⟩

/-- C6 as stated fails: a packet with `flags = 4`, which is not `0`, takes the data
branch and its payload byte is written to standard output. -/
theorem data_classification_counterexample :
    flag4_packet.flags = 4 ∧ flag4_packet.flags ≠ 0 ∧
    (Server.iter true (fun _ => 777) false Server.State.init ⟨1024, flag4_packet⟩).2
      = Server.data_path true flag4_packet ∧
    (Server.iter true (fun _ => 777) false Server.State.init ⟨1024, flag4_packet⟩).2.stdout
      = [104] := by
  refine ⟨rfl, by decide, ?_, ?_⟩
  · rw [Server.iter_data true (fun _ => 777) false Server.State.init ⟨1024, flag4_packet⟩
      (by decide) (by decide) (by decide)]
  · rw [Server.iter_data true (fun _ => 777) false Server.State.init ⟨1024, flag4_packet⟩
      (by decide) (by decide) (by decide)]
    decide

/-! ## Duplicate SYN -/

/-- C7, amended. The same SYN received twice in a row is answered by two SYN-ACKs
with the same `ack = received.seq + 1` (modulo `2 ^ 32`), the same `flags = 3` and
`length = 0`; the `seq` of each is a fresh value of the random source modulo 10000,
so the two answers are equal exactly when the two draws agree modulo 10000. -/
theorem duplicate_syn_replies (le : Bool) (rand : Nat → Nat) (errno_again : Bool)
    (st : Server.State) (pkt : packet) (n : Int) (hn : 0 < n) (hsyn : pkt.flags % 2 = 1) :
    ∃ a b : packet,
      (Server.run le rand errno_again st [⟨n, pkt⟩, ⟨n, pkt⟩]).2.sent = [a, b] ∧
      ntohl le a.ack = (ntohl le pkt.seq + 1) % 4294967296 ∧
      a.ack = b.ack ∧
      a.flags = 3 ∧ b.flags = 3 ∧
      a.length = 0 ∧ b.length = 0 ∧
      ntohl le a.seq = rand st.rand_calls % 10000 ∧
      ntohl le b.seq = rand (st.rand_calls + 1) % 10000 ∧
      (a = b ↔ rand st.rand_calls % 10000 = rand (st.rand_calls + 1) % 10000) := by
  have h1 := Server.iter_syn le rand errno_again st ⟨n, pkt⟩ hn hsyn
  have h2 := Server.iter_syn le rand errno_again
    { client_connected := true, rand_calls := st.rand_calls + 1 } ⟨n, pkt⟩ hn hsyn
  have hr1 : rand st.rand_calls % 10000 < 4294967296 := by omega
  have hr2 : rand (st.rand_calls + 1) % 10000 < 4294967296 := by omega
  have hk : (ntohl le pkt.seq + 1) % 4294967296 < 4294967296 := Nat.mod_lt _ (by decide)
  refine ⟨Server.syn_ack_packet le (rand st.rand_calls) (ntohl le pkt.seq),
          Server.syn_ack_packet le (rand (st.rand_calls + 1)) (ntohl le pkt.seq),
          ?_, ?_, ?_, ?_, ?_, ?_, ?_, ?_, ?_, ?_⟩
  · simp only [Server.run, h1, h2]
    rfl
  · exact ntohl_htonl le _ hk
  · simp [Server.syn_ack_packet]
  · simp [Server.syn_ack_packet]
  · simp [Server.syn_ack_packet]
  · simp [Server.syn_ack_packet, packet.zero]
  · simp [Server.syn_ack_packet, packet.zero]
  · exact ntohl_htonl le _ hr1
  · exact ntohl_htonl le _ hr2
  · constructor
    · intro h
      have hseq := congrArg packet.seq h
      exact htonl_inj le _ _ hr1 hr2 hseq
    · intro h
      unfold Server.syn_ack_packet
      rw [h]

/-- C7 amended, at the SYN `seq = 42` with draws 1 and 2. -/
theorem duplicate_syn_replies_witness :
    ∃ a b : packet,
      (Server.run true (fun k => k + 1) false Server.State.init
        [⟨1024, Client.syn_packet true 42⟩, ⟨1024, Client.syn_packet true 42⟩]).2.sent = [a, b] ∧
      ntohl true a.ack = 43 ∧ a.ack = b.ack ∧ a.flags = 3 ∧ b.flags = 3 ∧
      ntohl true a.seq = 1 ∧ ntohl true b.seq = 2 := by
  obtain ⟨a, b, h1, h2, h3, h4, h5, _, _, h8, h9, _⟩ :=
    duplicate_syn_replies true (fun k => k + 1) false Server.State.init
      (Client.syn_packet true 42) 1024 (by decide) (by decide)
  exact ⟨a, b, h1, h2, h3, h4, h5, h8, h9⟩

/-- C7 as stated fails: with the random source returning 1 and then 2, the same SYN
(`seq = 42`) received twice is answered with `seq = 1` and then `seq = 2`. -/
theorem duplicate_syn_counterexample :
    (Client.syn_packet true 42).flags = 1 ∧
    ((Server.run true (fun k => k + 1) false Server.State.init
        [⟨1024, Client.syn_packet true 42⟩, ⟨1024, Client.syn_packet true 42⟩]).2.sent.map
      (fun p => (ntohl true p.seq, ntohl true p.ack, p.flags))) = [(1, 43, 3), (2, 43, 3)] := by
  decide

/-! ## Payload length -/

/-- C8, the code on a `length` field above `MSS`. For the data packets with
`seq = ack = 43` and `length = 1013` or `length = 65535`, the count handed to
`write(STDOUT_FILENO, pkt.payload, count)` is 1013, respectively 65535: more than
the 1012 bytes of `payload`. -/
theorem oversized_length_written :
    (Server.iter true (fun _ => 777) false Server.State.init
      ⟨1024, data_packet 43 43 1013 hello⟩).2.write_calls = [1013] ∧
    (Server.iter true (fun _ => 777) false Server.State.init
      ⟨1024, data_packet 43 43 65535 hello⟩).2.write_calls = [65535] ∧
    MSS < 1013 := by
  decide

/-! ## Wire format -/

/-- C9. Header codec in network byte order, on a host of either byte order, for
every `ack`, `seq` below `2 ^ 32`, every `length` below `2 ^ 16`, every `flags`,
every reserved byte `un` and every payload.

Encoding: a `packet` whose fields hold `htonl(ack)`, `htonl(seq)`, `htons(length)`,
`flags` and `un` is put on the wire by `sendto` as the big-endian bytes of `ack` at
offset 0, of `seq` at offset 4, of `length` at offset 8, then `flags` at offset 10,
`un` at offset 11 and the payload. In particular the first twelve bytes of every
packet the programs build (the acknowledgment of `send_ack`, the SYN, the final
ACK, the SYN-ACK, all with `length = 0`) are the big-endian bytes of its `ack`,
`seq` and `length`, then `flags` and a zero byte.

Decoding: the receiver (`recvfrom` into the struct, then `ntohl` / `ntohs`) reads
exactly `ack`, `seq`, `length` and `flags` back, from that wire image and from any
datagram that starts with the same twelve header bytes, whatever `un` is. -/
theorem header_codec_roundtrip (le : Bool) (ack seq len fl un : Nat) (payload : List Nat)
    (ha : ack < 4294967296) (hs : seq < 4294967296) (hl : len < 65536) :
    packet.toMem le
      { ack := htonl le ack, seq := htonl le seq, length := htons le len
        flags := fl, unused := un, payload := payload }
      = be32 ack ++ be32 seq ++ be16 len ++ [fl, un] ++ payload ∧
    ntohl le (recvDatagram le (packet.toMem le
      { ack := htonl le ack, seq := htonl le seq, length := htons le len
        flags := fl, unused := un, payload := payload })).pkt.ack = ack ∧
    ntohl le (recvDatagram le (packet.toMem le
      { ack := htonl le ack, seq := htonl le seq, length := htons le len
        flags := fl, unused := un, payload := payload })).pkt.seq = seq ∧
    ntohs le (recvDatagram le (packet.toMem le
      { ack := htonl le ack, seq := htonl le seq, length := htons le len
        flags := fl, unused := un, payload := payload })).pkt.length = len ∧
    (recvDatagram le (packet.toMem le
      { ack := htonl le ack, seq := htonl le seq, length := htons le len
        flags := fl, unused := un, payload := payload })).pkt.flags = fl ∧
    (∀ rand_val : Nat,
      ((Server.send_ack le ack).toMem le).take 12 = be32 ack ++ be32 0 ++ be16 0 ++ [2, 0] ∧
      ((Client.syn_packet le seq).toMem le).take 12 = be32 0 ++ be32 seq ++ be16 0 ++ [1, 0] ∧
      ((Client.ack_packet le seq ack).toMem le).take 12
        = be32 ((ack + 1) % 4294967296) ++ be32 ((seq + 1) % 4294967296) ++ be16 0 ++ [2, 0] ∧
      ((Server.syn_ack_packet le rand_val seq).toMem le).take 12
        = be32 ((seq + 1) % 4294967296) ++ be32 (rand_val % 10000) ++ be16 0 ++ [3, 0]) ∧
    ntohl le (recvDatagram le
      (be32 ack ++ be32 seq ++ be16 len ++ [fl, un] ++ payload)).pkt.ack = ack ∧
    ntohl le (recvDatagram le
      (be32 ack ++ be32 seq ++ be16 len ++ [fl, un] ++ payload)).pkt.seq = seq ∧
    ntohs le (recvDatagram le
      (be32 ack ++ be32 seq ++ be16 len ++ [fl, un] ++ payload)).pkt.length = len ∧
    (recvDatagram le
      (be32 ack ++ be32 seq ++ be16 len ++ [fl, un] ++ payload)).pkt.flags = fl := by
  obtain ⟨d0, d1, d2, d3⟩ := recv_fields le (ack / 16777216 % 256) (ack / 65536 % 256)
    (ack / 256 % 256) (ack % 256) (seq / 16777216 % 256) (seq / 65536 % 256) (seq / 256 % 256)
    (seq % 256) (len / 256 % 256) (len % 256) fl un payload
    (Nat.mod_lt _ (by decide)) (Nat.mod_lt _ (by decide)) (Nat.mod_lt _ (by decide))
    (Nat.mod_lt _ (by decide)) (Nat.mod_lt _ (by decide)) (Nat.mod_lt _ (by decide))
    (Nat.mod_lt _ (by decide)) (Nat.mod_lt _ (by decide)) (Nat.mod_lt _ (by decide))
    (Nat.mod_lt _ (by decide))
  rw [bytes32_join ack ha] at d0
  rw [bytes32_join seq hs] at d1
  rw [be16_join len hl] at d2
  have enc := toMem_network_order le ack seq len fl un payload
  refine ⟨enc, ?_, ?_, ?_, ?_, fun rand_val => ⟨?_, ?_, ?_, ?_⟩, ?_, ?_, ?_, ?_⟩
  · rw [enc]; exact d0
  · rw [enc]; exact d1
  · rw [enc]; exact d2
  · rw [enc]; exact d3
  · rw [toMem_header]
    simp only [Server.send_ack, packet.zero, storeU32_htonl, storeU32_zero, storeU16_zero]
    rfl
  · rw [toMem_header]
    simp only [Client.syn_packet, packet.zero, storeU32_htonl, storeU32_zero, storeU16_zero]
  · rw [toMem_header]
    simp only [Client.ack_packet, packet.zero, storeU32_htonl, storeU32_zero, storeU16_zero]
    rfl
  · rw [toMem_header]
    simp only [Server.syn_ack_packet, packet.zero, storeU32_htonl, storeU32_zero, storeU16_zero]
    rfl
  · exact d0
  · exact d1
  · exact d2
  · exact d3

/-- C9 at `ack = 43`, `seq = 777`, `length = 5`, `flags = 0`, reserved byte 255 on a
little-endian host: the wire image starts `0 0 0 43`, `0 0 3 9`, `0 5`, `0`, `255`
and is decoded back to 43, 777, 5 and 0. -/
theorem header_codec_roundtrip_witness :
    (43 : Nat) < 4294967296 ∧ (777 : Nat) < 4294967296 ∧ (5 : Nat) < 65536 ∧
    packet.toMem true
      { ack := htonl true 43, seq := htonl true 777, length := htons true 5
        flags := 0, unused := 255, payload := hello }
      = [0, 0, 0, 43] ++ [0, 0, 3, 9] ++ [0, 5] ++ [0, 255] ++ hello ∧
    ntohl true (recvDatagram true (packet.toMem true
      { ack := htonl true 43, seq := htonl true 777, length := htons true 5
        flags := 0, unused := 255, payload := hello })).pkt.ack = 43 ∧
    ntohl true (recvDatagram true (packet.toMem true
      { ack := htonl true 43, seq := htonl true 777, length := htons true 5
        flags := 0, unused := 255, payload := hello })).pkt.seq = 777 ∧
    ntohs true (recvDatagram true (packet.toMem true
      { ack := htonl true 43, seq := htonl true 777, length := htons true 5
        flags := 0, unused := 255, payload := hello })).pkt.length = 5 ∧
    (recvDatagram true (packet.toMem true
      { ack := htonl true 43, seq := htonl true 777, length := htons true 5
        flags := 0, unused := 255, payload := hello })).pkt.flags = 0 :=
  ⟨by decide, by decide, by decide,
    (header_codec_roundtrip true 43 777 5 0 255 hello (by decide) (by decide) (by decide)).1,
    (header_codec_roundtrip true 43 777 5 0 255 hello (by decide) (by decide)
      (by decide)).2.1,
    (header_codec_roundtrip true 43 777 5 0 255 hello (by decide) (by decide)
      (by decide)).2.2.1,
    (header_codec_roundtrip true 43 777 5 0 255 hello (by decide) (by decide)
      (by decide)).2.2.2.1,
    (header_codec_roundtrip true 43 777 5 0 255 hello (by decide) (by decide)
      (by decide)).2.2.2.2.1⟩

/-! ## Acknowledgments -/

/-- C10. Acknowledgments are never answered. For every outcome of `recvfrom` whose
packet has bit 0 (SYN) of `flags` clear and bit 1 (ACK) set, whatever its other
fields, the listener hands no packet to `sendto` and writes nothing to standard
output. Every packet built by `send_ack` has `flags = 2`, `seq = 0`, `length = 0`,
and fed back to the listener in any state it produces no packet and no output. -/
theorem ack_not_answered (le : Bool) (rand : Nat → Nat) (errno_again : Bool)
    (st : Server.State) (ev : RecvResult)
    (hsyn : ev.pkt.flags % 2 = 0) (hack : ev.pkt.flags / 2 % 2 = 1) :
    (Server.iter le rand errno_again st ev).2.sent = [] ∧
    (Server.iter le rand errno_again st ev).2.stdout = [] ∧
    (Server.iter le rand errno_again st ev).2.write_calls = [] ∧
    ∀ (ack_num : Nat) (st2 : Server.State) (n : Int),
      (Server.send_ack le ack_num).flags = 2 ∧
      (Server.send_ack le ack_num).seq = 0 ∧
      (Server.send_ack le ack_num).length = 0 ∧
      (Server.iter le rand errno_again st2 ⟨n, Server.send_ack le ack_num⟩).2.sent = [] ∧
      (Server.iter le rand errno_again st2 ⟨n, Server.send_ack le ack_num⟩).2.stdout = [] ∧
      (Server.iter le rand errno_again st2 ⟨n, Server.send_ack le ack_num⟩).2.write_calls = [] := by
  have gen : ∀ (st : Server.State) (ev : RecvResult),
      ev.pkt.flags % 2 = 0 → ev.pkt.flags / 2 % 2 = 1 →
      (Server.iter le rand errno_again st ev).2.sent = [] ∧
      (Server.iter le rand errno_again st ev).2.stdout = [] ∧
      (Server.iter le rand errno_again st ev).2.write_calls = [] := by
    intro st ev h0 h1
    have hs : ¬ (ev.pkt.flags &&& 1 ≠ 0) := by rw [flag_syn_iff]; omega
    have ha : ev.pkt.flags &&& (1 <<< 1) ≠ 0 := (flag_ack_iff _).2 h1
    unfold Server.iter
    simp only [hs, ha, if_true, if_false]
    split_ifs <;> simp [Server.Effects.none]
  refine ⟨(gen st ev hsyn hack).1, (gen st ev hsyn hack).2.1, (gen st ev hsyn hack).2.2, ?_⟩
  intro ack_num st2 n
  have hf : (Server.send_ack le ack_num).flags = 2 := rfl
  refine ⟨hf, rfl, rfl, ?_⟩
  exact gen st2 ⟨n, Server.send_ack le ack_num⟩ (by simp [hf]) (by simp [hf])

/-- C10 at the acknowledgment `send_ack 48` fed back to the listener. -/
theorem ack_not_answered_witness :
    (Server.send_ack true 48).flags % 2 = 0 ∧ (Server.send_ack true 48).flags / 2 % 2 = 1 ∧
    (Server.iter true (fun _ => 777) false Server.State.init ⟨1024, Server.send_ack true 48⟩).2.sent
      = [] ∧
    (Server.iter true (fun _ => 777) false Server.State.init
      ⟨1024, Server.send_ack true 48⟩).2.stdout = [] :=
  ⟨by decide, by decide,
    (ack_not_answered true (fun _ => 777) false Server.State.init ⟨1024, Server.send_ack true 48⟩
      (by decide) (by decide)).1,
    (ack_not_answered true (fun _ => 777) false Server.State.init ⟨1024, Server.send_ack true 48⟩
      (by decide) (by decide)).2.1⟩

end CS118
